import Mathlib

/-!
# Shallow embedding of the lightrain-options credit-spread bots

Embeds the decision logic of the four Python modules
`theta_tuesday_paper.py`, `theta_wednesday_paper.py`,
`theta_thursday_paper.py` and `thetaw_backtest.py` into Lean.

Modelling conventions:
* Python floats are embedded as `ℚ` (exact arithmetic; the programs use
  only +, −, ×, ÷, `abs`, `min`, `max` and `round` on small decimals).
* Clock times are minutes since midnight (`ℕ`); `datetime.now(IST)` is an
  explicit argument `now : Now` carrying the weekday and the minutes.
* Calendar dates are abstract day identifiers (`ℕ`); the persisted
  `last_run_date` is an `Option ℕ` (`none` models the initial `None`).
* Python's `round` (round-half-to-even on the numeric value) is `pyRound`.
* `run()` returns `Option State`: `some s'` means the run reached its final
  `save_state` with in-memory state `s'` (every earlier `save_state` in the
  source writes a prefix of the same state, so the persisted result is
  `s'`); `none` means the run returned before any `save_state` call, so
  the persisted state is untouched.
* Log lines and Telegram messages are pure output and are dropped; the
  rendered reason/result strings are embedded as the enumerations
  `ExitReason` and `ResultLabel` that select them.
-/

/-- Python 3 `round` to the nearest integer, ties to even, on an exact
rational value. -/
def pyRound (q : ℚ) : ℤ :=
  let f : ℤ := ⌊q⌋
  let r : ℚ := q - f
  if r < 1/2 then f
  else if 1/2 < r then f + 1
  else if 2 ∣ f then f else f + 1

/-- The reason strings produced by the `check_exit` functions:
`"STOP LOSS 2× (...)"` and `"EOD Exit"`. -/
inductive ExitReason where
  | stopLoss
  | eodExit
  deriving DecidableEq, Repr

/-- The outcome labels attached to a realized trade:
`"✅ WIN"`, `"❌ MAX LOSS"`, `"⚠️ PARTIAL LOSS"`. -/
inductive ResultLabel where
  | win
  | maxLoss
  | partLoss
  deriving DecidableEq, Repr

/-- The current timestamp delivered to a run: weekday (Monday = 0) and
minutes since midnight. -/
structure Now where
  weekday : ℕ
  mins : ℕ
  deriving DecidableEq, Repr

namespace ThetaT

/-! ## theta_tuesday_paper.py — NIFTY Tuesday 0DTE with stop loss -/

def SPREAD_WIDTH : ℚ := 50
def OTM_PCT : ℚ := 1.0
def MIN_CREDIT_PCT : ℚ := 15
def ENTRY_START : ℕ := 11 * 60        -- time(11, 0)
def ENTRY_END : ℕ := 14 * 60          -- time(14, 0)
def EXIT_TIME : ℕ := 15 * 60 + 25     -- time(15, 25)
def LOTS : ℚ := 2
def LOT_SIZE : ℚ := 75
def INITIAL_CAPITAL : ℚ := 500000
def STOP_LOSS_MULTIPLIER : ℚ := 2.0

/-- The NIFTY `base_pct` if-chain inside `estimate_premium`
(theta_tuesday_paper.py lines 124–132). -/
def base_pct (distance_pct : ℚ) : ℚ :=
  if distance_pct < 0.2 then 0.45
  else if distance_pct < 0.4 then 0.35
  else if distance_pct < 0.6 then 0.25
  else if distance_pct < 0.8 then 0.18
  else if distance_pct < 1.0 then 0.12
  else if distance_pct < 1.2 then 0.08
  else if distance_pct < 1.5 then 0.05
  else if distance_pct < 2.0 then 0.03
  else 0.015

/-- `estimate_premium(spot, strike, hours_to_expiry)` for NIFTY
(theta_tuesday_paper.py lines 116–134). -/
def estimate_premium (spot strike hours_to_expiry : ℚ) : ℚ :=
  let distance_pct := |spot - strike| / spot * 100
  let time_factor := min (hours_to_expiry / 5.5) 1.0
  max (spot * base_pct distance_pct / 100 * time_factor) 3

/-- `get_hours_left(now)` (theta_tuesday_paper.py lines 137–143):
`max((close_mins − current_mins)/60, 0.0001)` with close at 15:30. -/
def get_hours_left (current_mins : ℕ) : ℚ :=
  max (((15 * 60 + 30 : ℚ) - current_mins) / 60) 0.0001

/-- `calculate_spread_pnl(short_strike, long_strike, credit, exit_spot)`
(theta_tuesday_paper.py lines 146–153). -/
def calculate_spread_pnl (short_strike long_strike credit exit_spot : ℚ) : ℚ :=
  if exit_spot ≥ short_strike then credit
  else if exit_spot ≤ long_strike then credit - (short_strike - long_strike)
  else credit - (short_strike - exit_spot)

/-- The position dict built by `check_entry` (theta_tuesday_paper.py
lines 175–184). -/
structure Position where
  short_strike : ℚ
  long_strike : ℚ
  credit : ℚ
  credit_pct : ℚ
  entry_spot : ℚ
  entry_time : ℕ
  lots : ℚ
  stop_trigger : ℚ
  deriving DecidableEq, Repr

/-- The trade dict appended on exit (theta_tuesday_paper.py
lines 285–291). -/
structure Trade where
  date : ℕ
  exit_reason : Option ExitReason
  entry_time : ℕ
  exit_time : ℕ
  entry_spot : ℚ
  exit_spot : ℚ
  short_strike : ℚ
  long_strike : ℚ
  credit : ℚ
  pnl : ℚ
  result : ResultLabel
  deriving DecidableEq, Repr

/-- The persisted state (`load_state` default shape,
theta_tuesday_paper.py line 68). -/
structure State where
  capital : ℚ
  position : Option Position
  trades : List Trade
  last_run_date : Option ℕ
  deriving DecidableEq, Repr

/-- `check_entry(state, spot, now)` (theta_tuesday_paper.py
lines 156–184). The `state` argument is unused by the source as well. -/
def check_entry (_state : State) (spot : ℚ) (now : Now) : Option Position :=
  if now.mins < ENTRY_START ∨ ENTRY_END < now.mins then none
  else
    let short_strike : ℚ := (pyRound ((spot * (1 - OTM_PCT / 100)) / 50) : ℚ) * 50
    let long_strike := short_strike - SPREAD_WIDTH
    let hours_left := get_hours_left now.mins
    let short_premium := estimate_premium spot short_strike hours_left
    let long_premium := estimate_premium spot long_strike hours_left
    let net_credit := short_premium - long_premium
    let credit_pct := (net_credit / SPREAD_WIDTH) * 100
    if credit_pct < MIN_CREDIT_PCT then none
    else some
      { short_strike := short_strike
        long_strike := long_strike
        credit := net_credit
        credit_pct := credit_pct
        entry_spot := spot
        entry_time := now.mins
        lots := LOTS
        stop_trigger := net_credit * STOP_LOSS_MULTIPLIER }

/-- The `cost_to_close` recomputed by `check_exit`
(theta_tuesday_paper.py lines 195–197). -/
def cost_to_close (position : Position) (spot : ℚ) (now : Now) : ℚ :=
  estimate_premium spot position.short_strike (get_hours_left now.mins)
    - estimate_premium spot position.long_strike (get_hours_left now.mins)

/-- `check_exit(position, spot, now)` (theta_tuesday_paper.py
lines 187–207): stop-loss first, then EOD, else hold. -/
def check_exit (position : Position) (spot : ℚ) (now : Now) :
    Bool × Option ExitReason :=
  if cost_to_close position spot now ≥ position.stop_trigger then
    (true, some ExitReason.stopLoss)
  else if now.mins ≥ EXIT_TIME then (true, some ExitReason.eodExit)
  else (false, none)

/-- `run()` (theta_tuesday_paper.py lines 210–327), with the external
collaborators made explicit: `today` and `now` stand for
`datetime.now(IST)`, `spot?` for the result of `get_spot_price()`.
Returns `none` when the source returns before saving state. -/
def run (state : State) (today : ℕ) (now : Now) (spot? : Option ℚ) :
    Option State :=
  if now.weekday ≠ 1 then none                                 -- is_tuesday
  else if ¬ (9 * 60 + 15 ≤ now.mins ∧ now.mins ≤ 15 * 60 + 30) then none
  else
    let state :=
      if state.last_run_date ≠ some today then
        { state with position := none, last_run_date := some today }
      else state
    match spot? with
    | none => none                                -- `if not spot: return`
    | some spot =>
      if spot = 0 then none                       -- a falsy 0.0 price
      else
        match state.position with
        | none =>
          match check_entry state spot now with
          | some entry => some { state with position := some entry }
          | none => some state
        | some position =>
          let ex := check_exit position spot now
          if ex.1 then
            let pnl_per_lot := calculate_spread_pnl position.short_strike
              position.long_strike position.credit spot
            let total_pnl := pnl_per_lot * position.lots * LOT_SIZE
            let result :=
              if total_pnl > 0 then ResultLabel.win
              else if pnl_per_lot < -position.credit then ResultLabel.maxLoss
              else ResultLabel.partLoss
            let trade : Trade :=
              { date := today
                exit_reason := ex.2
                entry_time := position.entry_time
                exit_time := now.mins
                entry_spot := position.entry_spot
                exit_spot := spot
                short_strike := position.short_strike
                long_strike := position.long_strike
                credit := position.credit
                pnl := total_pnl
                result := result }
            some { state with
                    capital := state.capital + total_pnl
                    trades := state.trades ++ [trade]
                    position := none }
          else some state

end ThetaT

namespace ThetaW

/-! ## theta_wednesday_paper.py — Bank Nifty Wednesday 0DTE (EOD exit only) -/

def SPREAD_WIDTH : ℚ := 100
def OTM_PCT : ℚ := 0.75
def MIN_CREDIT_PCT : ℚ := 15
def ENTRY_START : ℕ := 10 * 60        -- time(10, 0)
def ENTRY_END : ℕ := 14 * 60          -- time(14, 0)
def EXIT_TIME : ℕ := 15 * 60 + 25     -- time(15, 25)
def LOTS : ℚ := 5
def LOT_SIZE : ℚ := 15
def STRIKE_STEP : ℚ := 100
def INITIAL_CAPITAL : ℚ := 500000

/-- The Bank Nifty `base_pct` if-chain inside `estimate_premium`
(theta_wednesday_paper.py lines 116–125). -/
def base_pct (distance_pct : ℚ) : ℚ :=
  if distance_pct < 0.2 then 0.65
  else if distance_pct < 0.4 then 0.50
  else if distance_pct < 0.6 then 0.38
  else if distance_pct < 0.8 then 0.27
  else if distance_pct < 1.0 then 0.18
  else if distance_pct < 1.25 then 0.12
  else if distance_pct < 1.5 then 0.08
  else if distance_pct < 2.0 then 0.05
  else if distance_pct < 2.5 then 0.03
  else 0.015

/-- `estimate_premium(spot, strike, hours_to_expiry)` for Bank Nifty
(theta_wednesday_paper.py lines 108–127); floor 5.0. -/
def estimate_premium (spot strike hours_to_expiry : ℚ) : ℚ :=
  let distance_pct := |spot - strike| / spot * 100
  let time_factor := min (hours_to_expiry / 5.5) 1.0
  max (spot * base_pct distance_pct / 100 * time_factor) 5.0

/-- `calculate_spread_pnl(short_k, long_k, credit, exit_spot)`
(theta_wednesday_paper.py lines 130–136). -/
def calculate_spread_pnl (short_k long_k credit exit_spot : ℚ) : ℚ :=
  if exit_spot ≥ short_k then credit
  else if exit_spot ≤ long_k then credit - (short_k - long_k)
  else credit - (short_k - exit_spot)

/-- The position dict built by `check_entry` (theta_wednesday_paper.py
lines 161–169): no stop-loss field in this variant. -/
structure Position where
  short_strike : ℚ
  long_strike : ℚ
  credit : ℚ
  credit_pct : ℚ
  entry_spot : ℚ
  entry_time : ℕ
  lots : ℚ
  deriving DecidableEq, Repr

/-- The trade dict appended on exit (theta_wednesday_paper.py
lines 248–259): no exit_reason field in this variant. -/
structure Trade where
  date : ℕ
  entry_time : ℕ
  exit_time : ℕ
  entry_spot : ℚ
  exit_spot : ℚ
  short_strike : ℚ
  long_strike : ℚ
  credit : ℚ
  pnl : ℚ
  result : ResultLabel
  deriving DecidableEq, Repr

/-- The persisted state (theta_wednesday_paper.py lines 66–67). -/
structure State where
  capital : ℚ
  position : Option Position
  trades : List Trade
  last_run_date : Option ℕ
  deriving DecidableEq, Repr

/-- `check_entry(state, spot)` (theta_wednesday_paper.py lines 139–169);
it reads `datetime.now(IST)` itself, made explicit as `now`. -/
def check_entry (_state : State) (spot : ℚ) (now : Now) : Option Position :=
  if now.mins < ENTRY_START ∨ ENTRY_END < now.mins then none
  else
    let short_k : ℚ :=
      (pyRound ((spot * (1 - OTM_PCT / 100)) / STRIKE_STEP) : ℚ) * STRIKE_STEP
    let long_k := short_k - SPREAD_WIDTH
    let hours_left : ℚ := ((15 * 60 + 30 : ℚ) - now.mins) / 60
    let short_prem := estimate_premium spot short_k hours_left
    let long_prem := estimate_premium spot long_k hours_left
    let net_credit := short_prem - long_prem
    let credit_pct := (net_credit / SPREAD_WIDTH) * 100
    if credit_pct < MIN_CREDIT_PCT then none
    else some
      { short_strike := short_k
        long_strike := long_k
        credit := net_credit
        credit_pct := credit_pct
        entry_spot := spot
        entry_time := now.mins
        lots := LOTS }

/-- `check_exit(state, spot)` (theta_wednesday_paper.py lines 172–175):
EOD only. -/
def check_exit (_state : State) (_spot : ℚ) (now : Now) :
    Bool × Option ExitReason :=
  if now.mins ≥ EXIT_TIME then (true, some ExitReason.eodExit)
  else (false, none)

/-- `run()` (theta_wednesday_paper.py lines 178–292); same conventions as
`ThetaT.run`. -/
def run (state : State) (today : ℕ) (now : Now) (spot? : Option ℚ) :
    Option State :=
  if now.weekday ≠ 2 then none                               -- is_wednesday
  else if ¬ (9 * 60 + 15 ≤ now.mins ∧ now.mins ≤ 15 * 60 + 30) then none
  else
    let state :=
      if state.last_run_date ≠ some today then
        { state with position := none, last_run_date := some today }
      else state
    match spot? with
    | none => none
    | some spot =>
      if spot = 0 then none
      else
        match state.position with
        | none =>
          match check_entry state spot now with
          | some entry => some { state with position := some entry }
          | none => some state
        | some position =>
          let ex := check_exit state spot now
          if ex.1 then
            let pnl_per_unit := calculate_spread_pnl position.short_strike
              position.long_strike position.credit spot
            let total_pnl := pnl_per_unit * position.lots * LOT_SIZE
            let result :=
              if pnl_per_unit > 0 then ResultLabel.win
              else if pnl_per_unit < -position.credit then ResultLabel.maxLoss
              else ResultLabel.partLoss
            let trade : Trade :=
              { date := today
                entry_time := position.entry_time
                exit_time := now.mins
                entry_spot := position.entry_spot
                exit_spot := spot
                short_strike := position.short_strike
                long_strike := position.long_strike
                credit := position.credit
                pnl := total_pnl
                result := result }
            some { state with
                    capital := state.capital + total_pnl
                    trades := state.trades ++ [trade]
                    position := none }
          else some state

end ThetaW

namespace ThetaTh

/-! ## theta_thursday_paper.py — NIFTY Thursday 0DTE (EOD exit only) -/

def SPREAD_WIDTH : ℚ := 50
def OTM_PCT : ℚ := 1.0
def MIN_CREDIT_PCT : ℚ := 15
def ENTRY_START : ℕ := 10 * 60        -- time(10, 0)
def ENTRY_END : ℕ := 14 * 60          -- time(14, 0)
def EXIT_TIME : ℕ := 15 * 60 + 25     -- time(15, 25)
def LOTS : ℚ := 10
def LOT_SIZE : ℚ := 50
def INITIAL_CAPITAL : ℚ := 500000

/-- The NIFTY `base_pct` if-chain inside `estimate_premium`
(theta_thursday_paper.py lines 142–159); same table as `ThetaT.base_pct`. -/
def base_pct (distance_pct : ℚ) : ℚ :=
  if distance_pct < 0.2 then 0.45
  else if distance_pct < 0.4 then 0.35
  else if distance_pct < 0.6 then 0.25
  else if distance_pct < 0.8 then 0.18
  else if distance_pct < 1.0 then 0.12
  else if distance_pct < 1.2 then 0.08
  else if distance_pct < 1.5 then 0.05
  else if distance_pct < 2.0 then 0.03
  else 0.015

/-- `estimate_premium(spot, strike, hours_to_expiry)`
(theta_thursday_paper.py lines 133–162). -/
def estimate_premium (spot strike hours_to_expiry : ℚ) : ℚ :=
  let distance_pct := |spot - strike| / spot * 100
  let time_factor := min (hours_to_expiry / 5.5) 1.0
  max (spot * base_pct distance_pct / 100 * time_factor) 3

/-- `calculate_spread_pnl(short_strike, long_strike, credit, exit_spot)`
(theta_thursday_paper.py lines 165–178); computes the width first. -/
def calculate_spread_pnl (short_strike long_strike credit exit_spot : ℚ) : ℚ :=
  let spread_width := short_strike - long_strike
  if exit_spot ≥ short_strike then credit
  else if exit_spot ≤ long_strike then credit - spread_width
  else credit - (short_strike - exit_spot)

/-- The position dict built by `check_entry` (theta_thursday_paper.py
lines 211–219). -/
structure Position where
  short_strike : ℚ
  long_strike : ℚ
  credit : ℚ
  credit_pct : ℚ
  entry_spot : ℚ
  entry_time : ℕ
  lots : ℚ
  deriving DecidableEq, Repr

/-- The trade dict appended on exit (theta_thursday_paper.py
lines 324–335). -/
structure Trade where
  date : ℕ
  entry_time : ℕ
  exit_time : ℕ
  entry_spot : ℚ
  exit_spot : ℚ
  short_strike : ℚ
  long_strike : ℚ
  credit : ℚ
  pnl : ℚ
  result : ResultLabel
  deriving DecidableEq, Repr

/-- The persisted state (theta_thursday_paper.py lines 69–74). -/
structure State where
  capital : ℚ
  position : Option Position
  trades : List Trade
  last_run_date : Option ℕ
  deriving DecidableEq, Repr

/-- `check_entry(state, spot)` (theta_thursday_paper.py lines 181–219). -/
def check_entry (_state : State) (spot : ℚ) (now : Now) : Option Position :=
  if now.mins < ENTRY_START ∨ ENTRY_END < now.mins then none
  else
    let short_strike : ℚ := (pyRound ((spot * (1 - OTM_PCT / 100)) / 50) : ℚ) * 50
    let long_strike := short_strike - SPREAD_WIDTH
    let hours_left : ℚ := ((15 * 60 + 30 : ℚ) - now.mins) / 60
    let short_premium := estimate_premium spot short_strike hours_left
    let long_premium := estimate_premium spot long_strike hours_left
    let net_credit := short_premium - long_premium
    let credit_pct := (net_credit / SPREAD_WIDTH) * 100
    if credit_pct < MIN_CREDIT_PCT then none
    else some
      { short_strike := short_strike
        long_strike := long_strike
        credit := net_credit
        credit_pct := credit_pct
        entry_spot := spot
        entry_time := now.mins
        lots := LOTS }

/-- `check_exit(state, spot)` (theta_thursday_paper.py lines 222–231):
EOD only. -/
def check_exit (_state : State) (_spot : ℚ) (now : Now) :
    Bool × Option ExitReason :=
  if now.mins ≥ EXIT_TIME then (true, some ExitReason.eodExit)
  else (false, none)

/-- `run()` (theta_thursday_paper.py lines 234–376); same conventions as
`ThetaT.run`. -/
def run (state : State) (today : ℕ) (now : Now) (spot? : Option ℚ) :
    Option State :=
  if now.weekday ≠ 3 then none                               -- is_thursday
  else if ¬ (9 * 60 + 15 ≤ now.mins ∧ now.mins ≤ 15 * 60 + 30) then none
  else
    let state :=
      if state.last_run_date ≠ some today then
        { state with position := none, last_run_date := some today }
      else state
    match spot? with
    | none => none
    | some spot =>
      if spot = 0 then none
      else
        match state.position with
        | none =>
          match check_entry state spot now with
          | some entry => some { state with position := some entry }
          | none => some state
        | some position =>
          let ex := check_exit state spot now
          if ex.1 then
            let pnl_per_lot := calculate_spread_pnl position.short_strike
              position.long_strike position.credit spot
            let total_pnl := pnl_per_lot * position.lots * LOT_SIZE
            let result :=
              if pnl_per_lot > 0 then ResultLabel.win
              else if pnl_per_lot < -position.credit then ResultLabel.maxLoss
              else ResultLabel.partLoss
            let trade : Trade :=
              { date := today
                entry_time := position.entry_time
                exit_time := now.mins
                entry_spot := position.entry_spot
                exit_spot := spot
                short_strike := position.short_strike
                long_strike := position.long_strike
                credit := position.credit
                pnl := total_pnl
                result := result }
            some { state with
                    capital := state.capital + total_pnl
                    trades := state.trades ++ [trade]
                    position := none }
          else some state

end ThetaTh

namespace BT

/-! ## thetaw_backtest.py — Bank Nifty Wednesday grid-search backtester -/

def LOT_SIZE : ℚ := 15
def INITIAL_CAPITAL : ℚ := 500000
def STRIKE_STEP : ℚ := 100
def ENTRY_HOURS_TO_EXPIRY : ℚ := 4.5

/-- The Bank Nifty `base_pct` if-chain inside `estimate_premium_bnf`
(thetaw_backtest.py lines 34–43); same table as `ThetaW.base_pct`. -/
def base_pct_bnf (distance_pct : ℚ) : ℚ :=
  if distance_pct < 0.2 then 0.65
  else if distance_pct < 0.4 then 0.50
  else if distance_pct < 0.6 then 0.38
  else if distance_pct < 0.8 then 0.27
  else if distance_pct < 1.0 then 0.18
  else if distance_pct < 1.25 then 0.12
  else if distance_pct < 1.5 then 0.08
  else if distance_pct < 2.0 then 0.05
  else if distance_pct < 2.5 then 0.03
  else 0.015

/-- `estimate_premium_bnf(spot, strike, hours_to_expiry)`
(thetaw_backtest.py lines 26–45). -/
def estimate_premium_bnf (spot strike hours_to_expiry : ℚ) : ℚ :=
  let distance_pct := |spot - strike| / spot * 100
  let time_factor := min (hours_to_expiry / 5.5) 1.0
  max (spot * base_pct_bnf distance_pct / 100 * time_factor) 5.0

/-- `spread_pnl(short_k, long_k, credit, exit_spot)`
(thetaw_backtest.py lines 48–54). -/
def spread_pnl (short_k long_k credit exit_spot : ℚ) : ℚ :=
  if exit_spot ≥ short_k then credit
  else if exit_spot ≤ long_k then credit - (short_k - long_k)
  else credit - (short_k - exit_spot)

/-- One historical Wednesday bar: Open as entry proxy, Close as exit proxy
(thetaw_backtest.py lines 73–78). -/
structure Session where
  entry_spot : ℚ
  exit_spot : ℚ
  deriving DecidableEq, Repr

/-- One parameter combination of the grid (thetaw_backtest.py
lines 90–91). -/
structure Params where
  otm_pct : ℚ
  spread_width : ℚ
  min_credit_pct : ℚ
  lots : ℚ
  deriving DecidableEq, Repr

/-- One recorded trade of a combination's replay (thetaw_backtest.py
lines 125–129). -/
structure BTrade where
  win : Bool
  pnl : ℚ
  credit_pct : ℚ
  deriving DecidableEq, Repr

/-- The running accumulator of one combination's replay
(thetaw_backtest.py lines 93–97). -/
structure Acc where
  trades : List BTrade
  capital : ℚ
  peak_capital : ℚ
  max_drawdown : ℚ
  skipped : ℕ
  deriving DecidableEq, Repr

/-- The accumulator before the first session (thetaw_backtest.py
lines 93–97). -/
def initAcc : Acc :=
  { trades := []
    capital := INITIAL_CAPITAL
    peak_capital := INITIAL_CAPITAL
    max_drawdown := 0
    skipped := 0 }

/-- The body of the per-session loop (thetaw_backtest.py lines 99–129)
for one parameter combination. -/
def step (p : Params) (acc : Acc) (w : Session) : Acc :=
  let entry_spot := w.entry_spot
  let exit_spot := w.exit_spot
  let short_k : ℚ :=
    (pyRound ((entry_spot * (1 - p.otm_pct / 100)) / STRIKE_STEP) : ℚ) * STRIKE_STEP
  let long_k := short_k - p.spread_width
  let short_prem := estimate_premium_bnf entry_spot short_k ENTRY_HOURS_TO_EXPIRY
  let long_prem := estimate_premium_bnf entry_spot long_k ENTRY_HOURS_TO_EXPIRY
  let net_credit := short_prem - long_prem
  let credit_pct := (net_credit / p.spread_width) * 100
  if credit_pct < p.min_credit_pct then
    { acc with skipped := acc.skipped + 1 }
  else
    let pnl_unit := spread_pnl short_k long_k net_credit exit_spot
    let total_pnl := pnl_unit * p.lots * LOT_SIZE
    let capital := acc.capital + total_pnl
    let peak_capital :=
      if capital > acc.peak_capital then capital else acc.peak_capital
    let dd := peak_capital - capital
    let max_drawdown := if dd > acc.max_drawdown then dd else acc.max_drawdown
    { acc with
        trades := acc.trades ++
          [{ win := total_pnl > 0, pnl := total_pnl, credit_pct := credit_pct }]
        capital := capital
        peak_capital := peak_capital
        max_drawdown := max_drawdown }

/-- The full replay of one parameter combination over the historical
sessions (thetaw_backtest.py lines 93–129). -/
def replay (p : Params) (sessions : List Session) : Acc :=
  sessions.foldl (step p) initAcc

end BT

/-- The `credit_pct` computed by `check_entry` (theta_tuesday_paper.py
lines 162–169), exposed as a function of (spot, now). -/
def ThetaT.entry_credit_pct (spot : ℚ) (now : Now) : ℚ :=
  let short_strike : ℚ :=
    (pyRound ((spot * (1 - ThetaT.OTM_PCT / 100)) / 50) : ℚ) * 50
  let long_strike := short_strike - ThetaT.SPREAD_WIDTH
  let hours_left := ThetaT.get_hours_left now.mins
  ((ThetaT.estimate_premium spot short_strike hours_left
    - ThetaT.estimate_premium spot long_strike hours_left)
      / ThetaT.SPREAD_WIDTH) * 100

/-- The `credit_pct` computed per session by `run_backtest`
(thetaw_backtest.py lines 103–110), exposed as a function. -/
def BT.session_credit_pct (p : BT.Params) (w : BT.Session) : ℚ :=
  let short_k : ℚ :=
    (pyRound ((w.entry_spot * (1 - p.otm_pct / 100)) / BT.STRIKE_STEP) : ℚ)
      * BT.STRIKE_STEP
  let long_k := short_k - p.spread_width
  let short_prem :=
    BT.estimate_premium_bnf w.entry_spot short_k BT.ENTRY_HOURS_TO_EXPIRY
  let long_prem :=
    BT.estimate_premium_bnf w.entry_spot long_k BT.ENTRY_HOURS_TO_EXPIRY
  ((short_prem - long_prem) / p.spread_width) * 100

/-! ## Shared helper lemmas -/

/-- The settlement function in closed form: credit minus the clamped
intrinsic loss.  The right-hand side is a composition of subtraction,
`min` and `max` of affine functions — manifestly continuous and
piecewise-linear. -/
lemma thetaT_pnl_closed_form (s l c : ℚ) (h : l < s) (x : ℚ) :
    ThetaT.calculate_spread_pnl s l c x = c - min (max (s - x) 0) (s - l) := by
  unfold ThetaT.calculate_spread_pnl
  split_ifs with h1 h2
  · rw [max_eq_right (by linarith : s - x ≤ (0 : ℚ)),
      min_eq_left (by linarith : (0 : ℚ) ≤ s - l), sub_zero]
  · rw [max_eq_left (by linarith : (0 : ℚ) ≤ s - x),
      min_eq_right (by linarith : s - l ≤ s - x)]
  · rw [max_eq_left (by linarith : (0 : ℚ) ≤ s - x),
      min_eq_left (by linarith : s - x ≤ s - l)]

/-- The backtester's `spread_pnl` is the same function as the Tuesday
bot's `calculate_spread_pnl`. -/
lemma spread_pnl_eq_calculate (s l c x : ℚ) :
    BT.spread_pnl s l c x = ThetaT.calculate_spread_pnl s l c x := rfl

/-- The Thursday bot's `calculate_spread_pnl` is also the same function. -/
lemma thetaTh_pnl_eq_calculate (s l c x : ℚ) :
    ThetaTh.calculate_spread_pnl s l c x = ThetaT.calculate_spread_pnl s l c x := rfl

/-! ## Claims -/

/-! Region-wise bounds for the NIFTY base_pct table.  `tBase_ubᵢ` bounds
the table from above given the region's left endpoint; `tBase_lbᵢ` bounds
it from below given the region's right endpoint. -/

lemma tBase_ub1 (d : ℚ) : ThetaT.base_pct d ≤ 0.45 := by
  unfold ThetaT.base_pct; split_ifs <;> norm_num

lemma tBase_ub2 (d : ℚ) (h : 0.2 ≤ d) : ThetaT.base_pct d ≤ 0.35 := by
  unfold ThetaT.base_pct; split_ifs <;> linarith

lemma tBase_ub3 (d : ℚ) (h : 0.4 ≤ d) : ThetaT.base_pct d ≤ 0.25 := by
  unfold ThetaT.base_pct; split_ifs <;> linarith

lemma tBase_ub4 (d : ℚ) (h : 0.6 ≤ d) : ThetaT.base_pct d ≤ 0.18 := by
  unfold ThetaT.base_pct; split_ifs <;> linarith

lemma tBase_ub5 (d : ℚ) (h : 0.8 ≤ d) : ThetaT.base_pct d ≤ 0.12 := by
  unfold ThetaT.base_pct; split_ifs <;> linarith

lemma tBase_ub6 (d : ℚ) (h : 1.0 ≤ d) : ThetaT.base_pct d ≤ 0.08 := by
  unfold ThetaT.base_pct; split_ifs <;> linarith

lemma tBase_ub7 (d : ℚ) (h : 1.2 ≤ d) : ThetaT.base_pct d ≤ 0.05 := by
  unfold ThetaT.base_pct; split_ifs <;> linarith

lemma tBase_ub8 (d : ℚ) (h : 1.5 ≤ d) : ThetaT.base_pct d ≤ 0.03 := by
  unfold ThetaT.base_pct; split_ifs <;> linarith

lemma tBase_ub9 (d : ℚ) (h : 2.0 ≤ d) : ThetaT.base_pct d ≤ 0.015 := by
  unfold ThetaT.base_pct; split_ifs <;> linarith

lemma tBase_lb1 (d : ℚ) (h : d < 0.2) : 0.45 ≤ ThetaT.base_pct d := by
  unfold ThetaT.base_pct; split_ifs <;> linarith

lemma tBase_lb2 (d : ℚ) (h : d < 0.4) : 0.35 ≤ ThetaT.base_pct d := by
  unfold ThetaT.base_pct; split_ifs <;> linarith

lemma tBase_lb3 (d : ℚ) (h : d < 0.6) : 0.25 ≤ ThetaT.base_pct d := by
  unfold ThetaT.base_pct; split_ifs <;> linarith

lemma tBase_lb4 (d : ℚ) (h : d < 0.8) : 0.18 ≤ ThetaT.base_pct d := by
  unfold ThetaT.base_pct; split_ifs <;> linarith

lemma tBase_lb5 (d : ℚ) (h : d < 1.0) : 0.12 ≤ ThetaT.base_pct d := by
  unfold ThetaT.base_pct; split_ifs <;> linarith

lemma tBase_lb6 (d : ℚ) (h : d < 1.2) : 0.08 ≤ ThetaT.base_pct d := by
  unfold ThetaT.base_pct; split_ifs <;> linarith

lemma tBase_lb7 (d : ℚ) (h : d < 1.5) : 0.05 ≤ ThetaT.base_pct d := by
  unfold ThetaT.base_pct; split_ifs <;> linarith

lemma tBase_lb8 (d : ℚ) (h : d < 2.0) : 0.03 ≤ ThetaT.base_pct d := by
  unfold ThetaT.base_pct; split_ifs <;> linarith

lemma tBase_lb9 (d : ℚ) : 0.015 ≤ ThetaT.base_pct d := by
  unfold ThetaT.base_pct; split_ifs <;> norm_num

/-! The same region-wise bounds for the Bank Nifty base_pct table. -/

lemma bBase_ub1 (d : ℚ) : BT.base_pct_bnf d ≤ 0.65 := by
  unfold BT.base_pct_bnf; split_ifs <;> norm_num

lemma bBase_ub2 (d : ℚ) (h : 0.2 ≤ d) : BT.base_pct_bnf d ≤ 0.50 := by
  unfold BT.base_pct_bnf; split_ifs <;> linarith

lemma bBase_ub3 (d : ℚ) (h : 0.4 ≤ d) : BT.base_pct_bnf d ≤ 0.38 := by
  unfold BT.base_pct_bnf; split_ifs <;> linarith

lemma bBase_ub4 (d : ℚ) (h : 0.6 ≤ d) : BT.base_pct_bnf d ≤ 0.27 := by
  unfold BT.base_pct_bnf; split_ifs <;> linarith

lemma bBase_ub5 (d : ℚ) (h : 0.8 ≤ d) : BT.base_pct_bnf d ≤ 0.18 := by
  unfold BT.base_pct_bnf; split_ifs <;> linarith

lemma bBase_ub6 (d : ℚ) (h : 1.0 ≤ d) : BT.base_pct_bnf d ≤ 0.12 := by
  unfold BT.base_pct_bnf; split_ifs <;> linarith

lemma bBase_ub7 (d : ℚ) (h : 1.25 ≤ d) : BT.base_pct_bnf d ≤ 0.08 := by
  unfold BT.base_pct_bnf; split_ifs <;> linarith

lemma bBase_ub8 (d : ℚ) (h : 1.5 ≤ d) : BT.base_pct_bnf d ≤ 0.05 := by
  unfold BT.base_pct_bnf; split_ifs <;> linarith

lemma bBase_ub9 (d : ℚ) (h : 2.0 ≤ d) : BT.base_pct_bnf d ≤ 0.03 := by
  unfold BT.base_pct_bnf; split_ifs <;> linarith

lemma bBase_ub10 (d : ℚ) (h : 2.5 ≤ d) : BT.base_pct_bnf d ≤ 0.015 := by
  unfold BT.base_pct_bnf; split_ifs <;> linarith

lemma bBase_lb1 (d : ℚ) (h : d < 0.2) : 0.65 ≤ BT.base_pct_bnf d := by
  unfold BT.base_pct_bnf; split_ifs <;> linarith

lemma bBase_lb2 (d : ℚ) (h : d < 0.4) : 0.50 ≤ BT.base_pct_bnf d := by
  unfold BT.base_pct_bnf; split_ifs <;> linarith

lemma bBase_lb3 (d : ℚ) (h : d < 0.6) : 0.38 ≤ BT.base_pct_bnf d := by
  unfold BT.base_pct_bnf; split_ifs <;> linarith

lemma bBase_lb4 (d : ℚ) (h : d < 0.8) : 0.27 ≤ BT.base_pct_bnf d := by
  unfold BT.base_pct_bnf; split_ifs <;> linarith

lemma bBase_lb5 (d : ℚ) (h : d < 1.0) : 0.18 ≤ BT.base_pct_bnf d := by
  unfold BT.base_pct_bnf; split_ifs <;> linarith

lemma bBase_lb6 (d : ℚ) (h : d < 1.25) : 0.12 ≤ BT.base_pct_bnf d := by
  unfold BT.base_pct_bnf; split_ifs <;> linarith

lemma bBase_lb7 (d : ℚ) (h : d < 1.5) : 0.08 ≤ BT.base_pct_bnf d := by
  unfold BT.base_pct_bnf; split_ifs <;> linarith

lemma bBase_lb8 (d : ℚ) (h : d < 2.0) : 0.05 ≤ BT.base_pct_bnf d := by
  unfold BT.base_pct_bnf; split_ifs <;> linarith

lemma bBase_lb9 (d : ℚ) (h : d < 2.5) : 0.03 ≤ BT.base_pct_bnf d := by
  unfold BT.base_pct_bnf; split_ifs <;> linarith

lemma bBase_lb10 (d : ℚ) : 0.015 ≤ BT.base_pct_bnf d := by
  unfold BT.base_pct_bnf; split_ifs <;> norm_num

/-- The NIFTY base_pct table is antitone in the distance. -/
lemma thetaT_base_pct_antitone {d1 d2 : ℚ} (h : d1 ≤ d2) :
    ThetaT.base_pct d2 ≤ ThetaT.base_pct d1 := by
  rcases lt_or_le d2 0.2 with hr1 | hr1
  · exact (tBase_ub1 d2).trans (tBase_lb1 d1 (by linarith))
  rcases lt_or_le d2 0.4 with hr2 | hr2
  · exact (tBase_ub2 d2 hr1).trans (tBase_lb2 d1 (by linarith))
  rcases lt_or_le d2 0.6 with hr3 | hr3
  · exact (tBase_ub3 d2 hr2).trans (tBase_lb3 d1 (by linarith))
  rcases lt_or_le d2 0.8 with hr4 | hr4
  · exact (tBase_ub4 d2 hr3).trans (tBase_lb4 d1 (by linarith))
  rcases lt_or_le d2 1.0 with hr5 | hr5
  · exact (tBase_ub5 d2 hr4).trans (tBase_lb5 d1 (by linarith))
  rcases lt_or_le d2 1.2 with hr6 | hr6
  · exact (tBase_ub6 d2 hr5).trans (tBase_lb6 d1 (by linarith))
  rcases lt_or_le d2 1.5 with hr7 | hr7
  · exact (tBase_ub7 d2 hr6).trans (tBase_lb7 d1 (by linarith))
  rcases lt_or_le d2 2.0 with hr8 | hr8
  · exact (tBase_ub8 d2 hr7).trans (tBase_lb8 d1 (by linarith))
  exact (tBase_ub9 d2 hr8).trans (tBase_lb9 d1)

/-- The Bank Nifty base_pct table is antitone in the distance. -/
lemma bt_base_pct_antitone {d1 d2 : ℚ} (h : d1 ≤ d2) :
    BT.base_pct_bnf d2 ≤ BT.base_pct_bnf d1 := by
  rcases lt_or_le d2 0.2 with hr1 | hr1
  · exact (bBase_ub1 d2).trans (bBase_lb1 d1 (by linarith))
  rcases lt_or_le d2 0.4 with hr2 | hr2
  · exact (bBase_ub2 d2 hr1).trans (bBase_lb2 d1 (by linarith))
  rcases lt_or_le d2 0.6 with hr3 | hr3
  · exact (bBase_ub3 d2 hr2).trans (bBase_lb3 d1 (by linarith))
  rcases lt_or_le d2 0.8 with hr4 | hr4
  · exact (bBase_ub4 d2 hr3).trans (bBase_lb4 d1 (by linarith))
  rcases lt_or_le d2 1.0 with hr5 | hr5
  · exact (bBase_ub5 d2 hr4).trans (bBase_lb5 d1 (by linarith))
  rcases lt_or_le d2 1.25 with hr6 | hr6
  · exact (bBase_ub6 d2 hr5).trans (bBase_lb6 d1 (by linarith))
  rcases lt_or_le d2 1.5 with hr7 | hr7
  · exact (bBase_ub7 d2 hr6).trans (bBase_lb7 d1 (by linarith))
  rcases lt_or_le d2 2.0 with hr8 | hr8
  · exact (bBase_ub8 d2 hr7).trans (bBase_lb8 d1 (by linarith))
  rcases lt_or_le d2 2.5 with hr9 | hr9
  · exact (bBase_ub9 d2 hr8).trans (bBase_lb9 d1 (by linarith))
  exact (bBase_ub10 d2 hr9).trans (bBase_lb10 d1)

/-- All NIFTY base_pct values are positive. -/
lemma thetaT_base_pct_pos (d : ℚ) : 0 < ThetaT.base_pct d :=
  lt_of_lt_of_le (by norm_num) (tBase_lb9 d)

/-- All Bank Nifty base_pct values are positive. -/
lemma bt_base_pct_pos (d : ℚ) : 0 < BT.base_pct_bnf d :=
  lt_of_lt_of_le (by norm_num) (bBase_lb10 d)

/-- Generic monotonicity of the premium shape
`max (spot * base d / 100 * min (h/5.5) 1.0) floor` when the base table
is antitone and positive: more distance means no more premium, whatever
the sign of the time factor. -/
lemma premium_shape_antitone (b : ℚ → ℚ)
    (hb : ∀ {x y : ℚ}, x ≤ y → b y ≤ b x) (hbpos : ∀ x, 0 < b x)
    (spot floor h2e : ℚ) (hs : 0 < spot) (hf : 0 < floor)
    {d1 d2 : ℚ} (hd : d1 ≤ d2) :
    max (spot * b d2 / 100 * min (h2e / 5.5) 1.0) floor ≤
      max (spot * b d1 / 100 * min (h2e / 5.5) 1.0) floor := by
  rcases le_or_lt 0 (min (h2e / 5.5) 1.0) with htf | htf
  · refine max_le_max ?_ le_rfl
    refine mul_le_mul_of_nonneg_right ?_ htf
    have hbb := hb hd
    have h1 : spot * b d2 ≤ spot * b d1 :=
      mul_le_mul_of_nonneg_left hbb (le_of_lt hs)
    linarith
  · have p2 : spot * b d2 / 100 * min (h2e / 5.5) 1.0 ≤ 0 := by
      have hnn : 0 ≤ spot * b d2 / 100 :=
        div_nonneg (mul_nonneg hs.le (hbpos d2).le) (by norm_num)
      exact mul_nonpos_of_nonneg_of_nonpos hnn (le_of_lt htf)
    have p1 : spot * b d1 / 100 * min (h2e / 5.5) 1.0 ≤ 0 := by
      have hnn : 0 ≤ spot * b d1 / 100 :=
        div_nonneg (mul_nonneg hs.le (hbpos d1).le) (by norm_num)
      exact mul_nonpos_of_nonneg_of_nonpos hnn (le_of_lt htf)
    rw [max_eq_right (le_trans p2 (le_of_lt hf)),
      max_eq_right (le_trans p1 (le_of_lt hf))]

/-- Claim C5: For fixed `spot > 0` and fixed `hours_to_expiry`, both premium
estimators are non-increasing as the strike moves further out of the
money: if `|spot − strike2|/spot ≥ |spot − strike1|/spot` then the premium
at `strike2` is at most the premium at `strike1` (NIFTY
`estimate_premium` and Bank Nifty `estimate_premium_bnf` alike). -/
theorem claim_C5 (spot h2e strike1 strike2 : ℚ) (hs : 0 < spot)
    (hd : |spot - strike1| / spot ≤ |spot - strike2| / spot) :
    ThetaT.estimate_premium spot strike2 h2e ≤
      ThetaT.estimate_premium spot strike1 h2e ∧
    BT.estimate_premium_bnf spot strike2 h2e ≤
      BT.estimate_premium_bnf spot strike1 h2e := by
  have hd100 : |spot - strike1| / spot * 100 ≤ |spot - strike2| / spot * 100 := by
    linarith
  constructor
  · show max (spot * ThetaT.base_pct (|spot - strike2| / spot * 100) / 100
        * min (h2e / 5.5) 1.0) 3 ≤
      max (spot * ThetaT.base_pct (|spot - strike1| / spot * 100) / 100
        * min (h2e / 5.5) 1.0) 3
    exact premium_shape_antitone ThetaT.base_pct
      (fun h => thetaT_base_pct_antitone h) thetaT_base_pct_pos
      spot 3 h2e hs (by norm_num) hd100
  · show max (spot * BT.base_pct_bnf (|spot - strike2| / spot * 100) / 100
        * min (h2e / 5.5) 1.0) 5.0 ≤
      max (spot * BT.base_pct_bnf (|spot - strike1| / spot * 100) / 100
        * min (h2e / 5.5) 1.0) 5.0
    exact premium_shape_antitone BT.base_pct_bnf
      (fun h => bt_base_pct_antitone h) bt_base_pct_pos
      spot (5.0 : ℚ) h2e hs (by norm_num) hd100

/-- Witness for C5: `spot=26000`, `strike1=25750` (nearer),
`strike2=25700` (further), `hours=4.5`. -/
theorem claim_C5_witness :
    ThetaT.estimate_premium 26000 25700 (9/2) ≤
      ThetaT.estimate_premium 26000 25750 (9/2) ∧
    BT.estimate_premium_bnf 26000 25700 (9/2) ≤
      BT.estimate_premium_bnf 26000 25750 (9/2) :=
  claim_C5 26000 (9/2) 25750 25700 (by norm_num) (by norm_num)

/-- Claim C6 counterexample: At `distance_pct = 2.5` — a breakpoint of the
Bank Nifty table — both models return the same tail value `0.015`, so the
Bank Nifty `base_pct` is *not* strictly larger than the NIFTY `base_pct`
at every breakpoint/distance. -/
theorem claim_C6_counterexample :
    BT.base_pct_bnf (5/2) = 0.015 ∧ ThetaT.base_pct (5/2) = 0.015 ∧
    ¬ ThetaT.base_pct (5/2) < BT.base_pct_bnf (5/2) := by
  refine ⟨?_, ?_, ?_⟩ <;>
    simp only [BT.base_pct_bnf, ThetaT.base_pct] <;> norm_num

/-- Claim C6 as amended: For every `distance_pct ≥ 0` the Bank Nifty
`base_pct` (identical in theta_wednesday_paper.py and
thetaw_backtest.py) dominates the NIFTY `base_pct` (`≥` everywhere), and
is strictly larger exactly on the distances below the final `2.5`
breakpoint; from `2.5` on both tables share the tail value `0.015`. -/
theorem claim_C6 (d : ℚ) (hd : 0 ≤ d) :
    ThetaT.base_pct d ≤ BT.base_pct_bnf d ∧
    (d < 5/2 → ThetaT.base_pct d < BT.base_pct_bnf d) ∧
    (5/2 ≤ d → ThetaT.base_pct d = BT.base_pct_bnf d) ∧
    ThetaW.base_pct d = BT.base_pct_bnf d ∧
    ThetaTh.base_pct d = ThetaT.base_pct d := by
  have hstrict : d < 5/2 → ThetaT.base_pct d < BT.base_pct_bnf d := by
    intro hlt
    rcases lt_or_le d 0.2 with hr1 | hr1
    · exact lt_of_le_of_lt (tBase_ub1 d)
        (lt_of_lt_of_le (by norm_num) (bBase_lb1 d hr1))
    rcases lt_or_le d 0.4 with hr2 | hr2
    · exact lt_of_le_of_lt (tBase_ub2 d hr1)
        (lt_of_lt_of_le (by norm_num) (bBase_lb2 d hr2))
    rcases lt_or_le d 0.6 with hr3 | hr3
    · exact lt_of_le_of_lt (tBase_ub3 d hr2)
        (lt_of_lt_of_le (by norm_num) (bBase_lb3 d hr3))
    rcases lt_or_le d 0.8 with hr4 | hr4
    · exact lt_of_le_of_lt (tBase_ub4 d hr3)
        (lt_of_lt_of_le (by norm_num) (bBase_lb4 d hr4))
    rcases lt_or_le d 1.0 with hr5 | hr5
    · exact lt_of_le_of_lt (tBase_ub5 d hr4)
        (lt_of_lt_of_le (by norm_num) (bBase_lb5 d hr5))
    rcases lt_or_le d 1.25 with hr6 | hr6
    · exact lt_of_le_of_lt (tBase_ub6 d hr5)
        (lt_of_lt_of_le (by norm_num) (bBase_lb6 d hr6))
    rcases lt_or_le d 1.5 with hr7 | hr7
    · exact lt_of_le_of_lt (tBase_ub7 d (by linarith))
        (lt_of_lt_of_le (by norm_num) (bBase_lb7 d hr7))
    rcases lt_or_le d 2.0 with hr8 | hr8
    · exact lt_of_le_of_lt (tBase_ub8 d hr7)
        (lt_of_lt_of_le (by norm_num) (bBase_lb8 d hr8))
    have hr9 : d < 2.5 := by
      have h52 : (5/2 : ℚ) = 2.5 := by norm_num
      rw [← h52]; exact hlt
    exact lt_of_le_of_lt (tBase_ub9 d hr8)
      (lt_of_lt_of_le (by norm_num) (bBase_lb9 d hr9))
  have heq : 5/2 ≤ d → ThetaT.base_pct d = BT.base_pct_bnf d := by
    intro hge
    have h1 : ThetaT.base_pct d = 0.015 :=
      le_antisymm (tBase_ub9 d (by linarith)) (tBase_lb9 d)
    have h2 : BT.base_pct_bnf d = 0.015 :=
      le_antisymm (bBase_ub10 d (by linarith)) (bBase_lb10 d)
    rw [h1, h2]
  refine ⟨?_, hstrict, heq, rfl, rfl⟩
  rcases lt_or_le d (5/2) with hlt | hge
  · exact le_of_lt (hstrict hlt)
  · exact le_of_eq (heq hge)

/-- Witness for C6 (amended) at `distance_pct = 1`, where the NIFTY table
gives `0.08` and the Bank Nifty table `0.12`. -/
theorem claim_C6_witness :
    ThetaT.base_pct 1 ≤ BT.base_pct_bnf 1 ∧
    ThetaT.base_pct 1 < BT.base_pct_bnf 1 :=
  ⟨(claim_C6 1 (by norm_num)).1, (claim_C6 1 (by norm_num)).2.1 (by norm_num)⟩

/-- Claim C1: For every spread with `long_strike < short_strike` and every
`exit_spot`, the settlement function (`calculate_spread_pnl` in
theta_tuesday_paper.py and `spread_pnl` in thetaw_backtest.py, which
agree pointwise) returns `credit` when `exit_spot ≥ short_strike`,
`credit − (short_strike − long_strike)` when `exit_spot ≤ long_strike`,
and `credit − (short_strike − exit_spot)` otherwise; it has the closed
form `credit − min (max (short − exit) 0) (short − long)`, a
piecewise-linear expression, and is `Continuous` in `exit_spot`. -/
theorem claim_C1 (s l c : ℚ) (h : l < s) :
    (∀ x, s ≤ x → ThetaT.calculate_spread_pnl s l c x = c) ∧
    (∀ x, x ≤ l → ThetaT.calculate_spread_pnl s l c x = c - (s - l)) ∧
    (∀ x, l < x → x < s → ThetaT.calculate_spread_pnl s l c x = c - (s - x)) ∧
    (∀ x, BT.spread_pnl s l c x = ThetaT.calculate_spread_pnl s l c x) ∧
    (∀ x, ThetaT.calculate_spread_pnl s l c x = c - min (max (s - x) 0) (s - l)) ∧
    Continuous (fun x : ℚ => ThetaT.calculate_spread_pnl s l c x) := by
  refine ⟨?_, ?_, ?_, ?_, thetaT_pnl_closed_form s l c h, ?_⟩
  · intro x hx
    unfold ThetaT.calculate_spread_pnl
    rw [if_pos (by exact hx)]
  · intro x hx
    unfold ThetaT.calculate_spread_pnl
    rw [if_neg (by intro hge; exact absurd hge (by simp only [ge_iff_le, not_le]; linarith)),
      if_pos hx]
  · intro x hx1 hx2
    unfold ThetaT.calculate_spread_pnl
    rw [if_neg (by simp only [ge_iff_le, not_le]; exact hx2),
      if_neg (by simp only [not_le]; exact hx1)]
  · intro x; exact spread_pnl_eq_calculate s l c x
  · have hfun : (fun x : ℚ => ThetaT.calculate_spread_pnl s l c x)
        = fun x : ℚ => c - min (max (s - x) 0) (s - l) :=
      funext fun x => thetaT_pnl_closed_form s l c h x
    rw [hfun]
    exact continuous_const.sub
      (((continuous_const.sub continuous_id).max continuous_const).min
        continuous_const)

/-- Witness for C1 at the spec's settlement scenario
(`short=25750, long=25700, credit=9.5, exit_spot=25730`). -/
theorem claim_C1_witness :
    ThetaT.calculate_spread_pnl 25750 25700 (19/2) 25730
      = 19/2 - (25750 - 25730) :=
  (claim_C1 25750 25700 (19/2) (by norm_num)).2.2.1 25730
    (by norm_num) (by norm_num)

/-- Claim C10: For every spread with `long_strike ≤ short_strike`, every
credit and every exit spot, all three settlement functions are bounded
between `credit − (short_strike − long_strike)` (maximum loss) and
`credit` (maximum gain). -/
theorem claim_C10 (s l : ℚ) (h : l ≤ s) :
    (∀ c x, c - (s - l) ≤ ThetaT.calculate_spread_pnl s l c x ∧
      ThetaT.calculate_spread_pnl s l c x ≤ c) ∧
    (∀ c x, c - (s - l) ≤ BT.spread_pnl s l c x ∧
      BT.spread_pnl s l c x ≤ c) ∧
    (∀ c x, c - (s - l) ≤ ThetaTh.calculate_spread_pnl s l c x ∧
      ThetaTh.calculate_spread_pnl s l c x ≤ c) := by
  have key : ∀ c x, c - (s - l) ≤ ThetaT.calculate_spread_pnl s l c x ∧
      ThetaT.calculate_spread_pnl s l c x ≤ c := by
    intro c x
    unfold ThetaT.calculate_spread_pnl
    split_ifs with h1 h2
    · constructor <;> linarith
    · constructor <;> linarith
    · simp only [ge_iff_le, not_le] at h1 h2
      constructor <;> linarith
  refine ⟨key, ?_, ?_⟩
  · intro c x; rw [spread_pnl_eq_calculate]; exact key c x
  · intro c x; rw [thetaTh_pnl_eq_calculate]; exact key c x

/-- Witness for C10 at the spec's settlement scenario. -/
theorem claim_C10_witness :
    (19 : ℚ)/2 - (25750 - 25700) ≤ ThetaT.calculate_spread_pnl 25750 25700 (19/2) 25730 ∧
    ThetaT.calculate_spread_pnl 25750 25700 (19/2) 25730 ≤ 19/2 :=
  (claim_C10 25750 25700 (by norm_num)).1 (19/2) 25730

/-- Claim C2: in the stop-loss variant the position's `stop_trigger` is
the entry credit times the stop multiple, and `check_exit` exits with the
stop-loss reason whenever `cost_to_close ≥ stop_trigger` (regardless of
the clock, so stop-loss is evaluated first and wins at or past 15:25);
it returns the EOD reason iff the stop-loss condition fails and
`now ≥ 15:25`; otherwise it holds with `(false, none)`. -/
theorem claim_C2 :
    (∀ st spot now p, ThetaT.check_entry st spot now = some p →
      p.stop_trigger = p.credit * ThetaT.STOP_LOSS_MULTIPLIER) ∧
    ∀ p spot now,
      (p.stop_trigger ≤ ThetaT.cost_to_close p spot now →
        ThetaT.check_exit p spot now = (true, some ExitReason.stopLoss)) ∧
      (ThetaT.check_exit p spot now = (true, some ExitReason.eodExit) ↔
        (ThetaT.cost_to_close p spot now < p.stop_trigger ∧
          ThetaT.EXIT_TIME ≤ now.mins)) ∧
      (ThetaT.cost_to_close p spot now < p.stop_trigger →
        now.mins < ThetaT.EXIT_TIME →
        ThetaT.check_exit p spot now = (false, none)) := by
  constructor
  · intro st spot now p h
    simp only [ThetaT.check_entry] at h
    split_ifs at h with h1 h2
    injection h with h
    subst h
    rfl
  · intro p spot now
    refine ⟨?_, ⟨?_, ?_⟩, ?_⟩
    · intro hge
      unfold ThetaT.check_exit
      rw [if_pos hge]
    · intro h
      unfold ThetaT.check_exit at h
      split_ifs at h with h1 h2
      · simp at h
      · exact ⟨not_le.mp h1, h2⟩
      · simp at h
    · rintro ⟨h1, h2⟩
      unfold ThetaT.check_exit
      rw [if_neg (not_le.mpr h1), if_pos h2]
    · intro h1 h2
      unfold ThetaT.check_exit
      rw [if_neg (not_le.mpr h1), if_neg (not_le.mpr h2)]

/-- Witness for C2: a concrete position (credit 5, stop_trigger 10) at
spot 25760 and 11:00, where `cost_to_close ≈ 21.08 ≥ 10`, exits with the
stop-loss reason. -/
theorem claim_C2_witness :
    ThetaT.check_exit ⟨25750, 25700, 5, 10, 26000, 660, 2, 10⟩ 25760 ⟨1, 660⟩
      = (true, some ExitReason.stopLoss) :=
  ((claim_C2.2 ⟨25750, 25700, 5, 10, 26000, 660, 2, 10⟩ 25760 ⟨1, 660⟩).1)
    (by norm_num [ThetaT.cost_to_close, ThetaT.estimate_premium,
      ThetaT.get_hours_left, ThetaT.base_pct])

/-- Claim C3: inside the entry window `check_entry` returns a candidate
iff `credit_pct ≥ MIN_CREDIT_PCT`, and returns `none` (a normal
no-entry outcome, not an error) when `credit_pct < MIN_CREDIT_PCT`;
likewise the backtester's per-session step skips (increments `skipped`)
exactly when the session's `credit_pct` is below the threshold, else
records exactly one trade. -/
theorem claim_C3 :
    (∀ st spot now,
      ThetaT.ENTRY_START ≤ now.mins → now.mins ≤ ThetaT.ENTRY_END →
      (((ThetaT.check_entry st spot now).isSome ↔
          ThetaT.MIN_CREDIT_PCT ≤ ThetaT.entry_credit_pct spot now) ∧
        (ThetaT.entry_credit_pct spot now < ThetaT.MIN_CREDIT_PCT →
          ThetaT.check_entry st spot now = none))) ∧
    (∀ p acc w,
      (BT.session_credit_pct p w < p.min_credit_pct →
        BT.step p acc w = { acc with skipped := acc.skipped + 1 }) ∧
      (p.min_credit_pct ≤ BT.session_credit_pct p w →
        (BT.step p acc w).trades.length = acc.trades.length + 1 ∧
        (BT.step p acc w).skipped = acc.skipped)) := by
  constructor
  · intro st spot now h1 h2
    have hcond : ¬ (now.mins < ThetaT.ENTRY_START ∨ ThetaT.ENTRY_END < now.mins) := by
      push_neg
      exact ⟨h1, h2⟩
    constructor
    · simp only [ThetaT.check_entry, ThetaT.entry_credit_pct, if_neg hcond]
      split_ifs with hc
      · simpa using not_le.mpr hc
      · simpa using not_lt.mp hc
    · intro hlt
      simp only [ThetaT.check_entry, if_neg hcond]
      rw [if_pos]
      exact hlt
  · intro p acc w
    constructor
    · intro hlt
      simp only [BT.step, BT.session_credit_pct] at hlt ⊢
      rw [if_pos hlt]
    · intro hge
      simp only [BT.step, BT.session_credit_pct] at hge ⊢
      rw [if_neg (not_lt.mpr hge)]
      simp

/-- Witness for C3 at the spec's entry scenario (`spot = 26000`,
11:00): `credit_pct ≈ 17.0 ≥ 15`, so a candidate is produced. -/
theorem claim_C3_witness :
    (ThetaT.check_entry ⟨500000, none, [], none⟩ 26000 ⟨1, 660⟩).isSome = true ∧
    ThetaT.MIN_CREDIT_PCT ≤ ThetaT.entry_credit_pct 26000 ⟨1, 660⟩ := by
  have h := (claim_C3.1 ⟨500000, none, [], none⟩ 26000 ⟨1, 660⟩
    (by norm_num [ThetaT.ENTRY_START]) (by norm_num [ThetaT.ENTRY_END])).1
  have hcp : ThetaT.MIN_CREDIT_PCT ≤ ThetaT.entry_credit_pct 26000 ⟨1, 660⟩ := by
    norm_num [ThetaT.entry_credit_pct, ThetaT.estimate_premium,
      ThetaT.get_hours_left, ThetaT.base_pct, ThetaT.MIN_CREDIT_PCT,
      ThetaT.SPREAD_WIDTH, ThetaT.OTM_PCT, pyRound]
  exact ⟨h.mpr hcp, hcp⟩

/-- Claim C4: every candidate produced by `check_entry` carries
`short_strike = round(spot * (1 − otm_pct/100) / strike_step) * strike_step`
(Python's round-half-to-even) and `long_strike = short_strike −
spread_width`; there is no error path (strike selection is total by
construction and rejection happens only in the credit filter).  At
`spot = 26000`, `otm_pct = 1.0`, `strike_step = 50`, `spread_width = 50`
this yields `short_strike = 25750` and `long_strike = 25700`. -/
theorem claim_C4 :
    (∀ st spot now p, ThetaT.check_entry st spot now = some p →
      p.short_strike = (pyRound ((spot * (1 - ThetaT.OTM_PCT / 100)) / 50) : ℚ) * 50 ∧
      p.long_strike = p.short_strike - ThetaT.SPREAD_WIDTH) ∧
    ((pyRound ((26000 * (1 - ThetaT.OTM_PCT / 100)) / 50) : ℚ) * 50 = 25750 ∧
      (25750 : ℚ) - ThetaT.SPREAD_WIDTH = 25700) := by
  constructor
  · intro st spot now p h
    simp only [ThetaT.check_entry] at h
    split_ifs at h with h1 h2
    injection h with h
    subst h
    exact ⟨rfl, rfl⟩
  · constructor
    · norm_num [pyRound, ThetaT.OTM_PCT]
    · norm_num [ThetaT.SPREAD_WIDTH]

/-- Witness for C4: the concrete candidate produced at spot 26000,
11:00 has the claimed strikes. -/
theorem claim_C4_witness :
    (⟨25750, 25700, 468/55, 936/55, 26000, 660, 2, 936/55⟩ :
        ThetaT.Position).short_strike =
      (pyRound ((26000 * (1 - ThetaT.OTM_PCT / 100)) / 50) : ℚ) * 50 ∧
    (⟨25750, 25700, 468/55, 936/55, 26000, 660, 2, 936/55⟩ :
        ThetaT.Position).long_strike = 25750 - ThetaT.SPREAD_WIDTH :=
  claim_C4.1 ⟨500000, none, [], none⟩ 26000 ⟨1, 660⟩
    ⟨25750, 25700, 468/55, 936/55, 26000, 660, 2, 936/55⟩
    (by norm_num [ThetaT.check_entry, ThetaT.estimate_premium,
      ThetaT.get_hours_left, ThetaT.base_pct, ThetaT.MIN_CREDIT_PCT,
      ThetaT.SPREAD_WIDTH, ThetaT.OTM_PCT, ThetaT.ENTRY_START,
      ThetaT.ENTRY_END, ThetaT.LOTS, ThetaT.STOP_LOSS_MULTIPLIER, pyRound])

/-- Day-boundary insensitivity for the Tuesday bot: on a stale date the
stored position is discarded, so `run` behaves as on the normalized
fresh-day state whatever position was persisted. -/
lemma thetaT_run_boundary (s : ThetaT.State) (today : ℕ) (now : Now)
    (spot? : Option ℚ) (h : s.last_run_date ≠ some today)
    (p : Option ThetaT.Position) :
    ThetaT.run { s with position := p } today now spot? =
      ThetaT.run { s with position := none, last_run_date := some today }
        today now spot? := by
  unfold ThetaT.run
  by_cases h1 : now.weekday ≠ 1
  · rw [if_pos h1, if_pos h1]
  rw [if_neg h1, if_neg h1]
  by_cases h2 : ¬ (9 * 60 + 15 ≤ now.mins ∧ now.mins ≤ 15 * 60 + 30)
  · rw [if_pos h2, if_pos h2]
  rw [if_neg h2, if_neg h2]
  rw [if_pos (show ({ s with position := p } : ThetaT.State).last_run_date
      ≠ some today from h),
    if_neg (show ¬ (({ s with position := none, last_run_date := some today } :
      ThetaT.State).last_run_date ≠ some today) from by simp)]

/-- After a stale-date reset the Tuesday run can only record `today` as
the last run date. -/
lemma thetaT_run_fresh_date (s : ThetaT.State) (today : ℕ) (now : Now)
    (spot? : Option ℚ) (h : s.last_run_date ≠ some today) :
    ∀ s', ThetaT.run s today now spot? = some s' →
      s'.last_run_date = some today := by
  intro s' hr
  have hb : ThetaT.run s today now spot? =
      ThetaT.run { s with position := none, last_run_date := some today }
        today now spot? :=
    thetaT_run_boundary s today now spot? h s.position
  rw [hb] at hr
  unfold ThetaT.run at hr
  by_cases h1 : now.weekday ≠ 1
  · rw [if_pos h1] at hr; cases hr
  rw [if_neg h1] at hr
  by_cases h2 : ¬ (9 * 60 + 15 ≤ now.mins ∧ now.mins ≤ 15 * 60 + 30)
  · rw [if_pos h2] at hr; cases hr
  rw [if_neg h2] at hr
  rw [if_neg (show ¬ (({ s with position := none, last_run_date := some today } :
    ThetaT.State).last_run_date ≠ some today) from by simp)] at hr
  rcases spot? with _ | spot
  · simp at hr
  dsimp only at hr
  by_cases hsp : spot = 0
  · rw [if_pos hsp] at hr; cases hr
  rw [if_neg hsp] at hr
  rcases hce : ThetaT.check_entry
      { s with position := none, last_run_date := some today } spot now
    with _ | e <;> simp only [hce, Option.some.injEq] at hr <;>
      subst hr <;> rfl

/-- Same boundary insensitivity for the Thursday bot. -/
lemma thetaTh_run_boundary (s : ThetaTh.State) (today : ℕ) (now : Now)
    (spot? : Option ℚ) (h : s.last_run_date ≠ some today)
    (p : Option ThetaTh.Position) :
    ThetaTh.run { s with position := p } today now spot? =
      ThetaTh.run { s with position := none, last_run_date := some today }
        today now spot? := by
  unfold ThetaTh.run
  by_cases h1 : now.weekday ≠ 3
  · rw [if_pos h1, if_pos h1]
  rw [if_neg h1, if_neg h1]
  by_cases h2 : ¬ (9 * 60 + 15 ≤ now.mins ∧ now.mins ≤ 15 * 60 + 30)
  · rw [if_pos h2, if_pos h2]
  rw [if_neg h2, if_neg h2]
  rw [if_pos (show ({ s with position := p } : ThetaTh.State).last_run_date
      ≠ some today from h),
    if_neg (show ¬ (({ s with position := none, last_run_date := some today } :
      ThetaTh.State).last_run_date ≠ some today) from by simp)]

/-- Same fresh-date recording for the Thursday bot. -/
lemma thetaTh_run_fresh_date (s : ThetaTh.State) (today : ℕ) (now : Now)
    (spot? : Option ℚ) (h : s.last_run_date ≠ some today) :
    ∀ s', ThetaTh.run s today now spot? = some s' →
      s'.last_run_date = some today := by
  intro s' hr
  have hb : ThetaTh.run s today now spot? =
      ThetaTh.run { s with position := none, last_run_date := some today }
        today now spot? :=
    thetaTh_run_boundary s today now spot? h s.position
  rw [hb] at hr
  unfold ThetaTh.run at hr
  by_cases h1 : now.weekday ≠ 3
  · rw [if_pos h1] at hr; cases hr
  rw [if_neg h1] at hr
  by_cases h2 : ¬ (9 * 60 + 15 ≤ now.mins ∧ now.mins ≤ 15 * 60 + 30)
  · rw [if_pos h2] at hr; cases hr
  rw [if_neg h2] at hr
  rw [if_neg (show ¬ (({ s with position := none, last_run_date := some today } :
    ThetaTh.State).last_run_date ≠ some today) from by simp)] at hr
  rcases spot? with _ | spot
  · simp at hr
  dsimp only at hr
  by_cases hsp : spot = 0
  · rw [if_pos hsp] at hr; cases hr
  rw [if_neg hsp] at hr
  rcases hce : ThetaTh.check_entry
      { s with position := none, last_run_date := some today } spot now
    with _ | e <;> simp only [hce, Option.some.injEq] at hr <;>
      subst hr <;> rfl

/-- Claim C7: when the persisted `last_run_date` differs from today,
the run is insensitive to whatever position was stored (the day-boundary
step clears it before any entry/exit evaluation), behaves exactly like
the run on the cleared state with today recorded, and any state it saves
carries `last_run_date = today`. -/
theorem claim_C7 :
    (∀ (s : ThetaT.State) (today : ℕ) (now : Now) (spot? : Option ℚ),
      s.last_run_date ≠ some today →
      (∀ p1 p2 : Option ThetaT.Position,
        ThetaT.run { s with position := p1 } today now spot? =
          ThetaT.run { s with position := p2 } today now spot?) ∧
      (ThetaT.run s today now spot? =
        ThetaT.run { s with position := none, last_run_date := some today }
          today now spot?) ∧
      (∀ s', ThetaT.run s today now spot? = some s' →
        s'.last_run_date = some today)) ∧
    (∀ (s : ThetaTh.State) (today : ℕ) (now : Now) (spot? : Option ℚ),
      s.last_run_date ≠ some today →
      (∀ p1 p2 : Option ThetaTh.Position,
        ThetaTh.run { s with position := p1 } today now spot? =
          ThetaTh.run { s with position := p2 } today now spot?) ∧
      (ThetaTh.run s today now spot? =
        ThetaTh.run { s with position := none, last_run_date := some today }
          today now spot?) ∧
      (∀ s', ThetaTh.run s today now spot? = some s' →
        s'.last_run_date = some today)) := by
  constructor
  · intro s today now spot? h
    exact ⟨fun p1 p2 => (thetaT_run_boundary s today now spot? h p1).trans
        (thetaT_run_boundary s today now spot? h p2).symm,
      thetaT_run_boundary s today now spot? h s.position,
      thetaT_run_fresh_date s today now spot? h⟩
  · intro s today now spot? h
    exact ⟨fun p1 p2 => (thetaTh_run_boundary s today now spot? h p1).trans
        (thetaTh_run_boundary s today now spot? h p2).symm,
      thetaTh_run_boundary s today now spot? h s.position,
      thetaTh_run_fresh_date s today now spot? h⟩

/-- Witness for C7: a concrete stale state (persisted date 0, today 1)
with a stored position behaves exactly like the cleared fresh-day state. -/
theorem claim_C7_witness :
    ThetaT.run ⟨500000, some ⟨25750, 25700, 5, 10, 26000, 660, 2, 10⟩, [], some 0⟩
        1 ⟨1, 660⟩ (some 26000) =
      ThetaT.run ⟨500000, none, [], some 1⟩ 1 ⟨1, 660⟩ (some 26000) :=
  (claim_C7.1 ⟨500000, some ⟨25750, 25700, 5, 10, 26000, 660, 2, 10⟩, [], some 0⟩
    1 ⟨1, 660⟩ (some 26000) (by simp)).2.1

/-- Claim C8: when `get_spot_price()` returns no price, all three bots'
`run` returns before any `save_state` call (modelled by the `none`
result), leaving the persisted state exactly as it was. -/
theorem claim_C8 :
    ∀ (today : ℕ) (now : Now),
      (∀ s : ThetaT.State, ThetaT.run s today now none = none) ∧
      (∀ s : ThetaW.State, ThetaW.run s today now none = none) ∧
      (∀ s : ThetaTh.State, ThetaTh.run s today now none = none) := by
  intro today now
  refine ⟨fun s => ?_, fun s => ?_, fun s => ?_⟩
  · unfold ThetaT.run
    by_cases h1 : now.weekday ≠ 1
    · rw [if_pos h1]
    rw [if_neg h1]
    by_cases h2 : ¬ (9 * 60 + 15 ≤ now.mins ∧ now.mins ≤ 15 * 60 + 30)
    · rw [if_pos h2]
    rw [if_neg h2]
  · unfold ThetaW.run
    by_cases h1 : now.weekday ≠ 2
    · rw [if_pos h1]
    rw [if_neg h1]
    by_cases h2 : ¬ (9 * 60 + 15 ≤ now.mins ∧ now.mins ≤ 15 * 60 + 30)
    · rw [if_pos h2]
    rw [if_neg h2]
  · unfold ThetaTh.run
    by_cases h1 : now.weekday ≠ 3
    · rw [if_pos h1]
    rw [if_neg h1]
    by_cases h2 : ¬ (9 * 60 + 15 ≤ now.mins ∧ now.mins ≤ 15 * 60 + 30)
    · rw [if_pos h2]
    rw [if_neg h2]

/-- One backtest step handles exactly one session: it either increments
`skipped` or appends exactly one trade. -/
lemma bt_step_count (p : BT.Params) (acc : BT.Acc) (w : BT.Session) :
    (BT.step p acc w).trades.length + (BT.step p acc w).skipped
      = acc.trades.length + acc.skipped + 1 := by
  simp only [BT.step]
  split_ifs <;> simp [List.length_append] <;> omega

/-- One backtest step never decreases `max_drawdown`. -/
lemma bt_step_dd (p : BT.Params) (acc : BT.Acc) (w : BT.Session) :
    acc.max_drawdown ≤ (BT.step p acc w).max_drawdown := by
  simp only [BT.step]
  split_ifs with h1 h2 h3 h4
  · exact le_rfl
  · exact le_of_lt h3
  · exact le_rfl
  · exact le_of_lt h4
  · exact le_rfl

/-- Invariant of the backtest fold: sessions are partitioned into trades
and skips, and `max_drawdown` is monotone along the replay. -/
lemma bt_fold_invariant (p : BT.Params) :
    ∀ (sessions : List BT.Session) (acc : BT.Acc),
      ((sessions.foldl (BT.step p) acc).trades.length
          + (sessions.foldl (BT.step p) acc).skipped
        = acc.trades.length + acc.skipped + sessions.length) ∧
      acc.max_drawdown ≤ (sessions.foldl (BT.step p) acc).max_drawdown := by
  intro sessions
  induction sessions with
  | nil => intro acc; simp
  | cons w ws ih =>
    intro acc
    simp only [List.foldl_cons, List.length_cons]
    refine ⟨?_, ?_⟩
    · have h1 := (ih (BT.step p acc w)).1
      have h2 := bt_step_count p acc w
      omega
    · exact le_trans (bt_step_dd p acc w) (ih (BT.step p acc w)).2

/-- Claim C9: for every parameter combination and session list, the
number of recorded trades plus the skipped count equals the number of
sessions considered, and `max_drawdown ≥ 0` at every point of the replay
(every prefix of the session list included). -/
theorem claim_C9 :
    ∀ (p : BT.Params) (sessions : List BT.Session),
      ((BT.replay p sessions).trades.length + (BT.replay p sessions).skipped
        = sessions.length) ∧
      (0 : ℚ) ≤ (BT.replay p sessions).max_drawdown ∧
      (∀ n, (0 : ℚ) ≤ (BT.replay p (sessions.take n)).max_drawdown) := by
  intro p sessions
  refine ⟨?_, ?_, fun n => ?_⟩
  · have h := (bt_fold_invariant p sessions BT.initAcc).1
    simpa [BT.replay, BT.initAcc] using h
  · have h := (bt_fold_invariant p sessions BT.initAcc).2
    simpa [BT.replay, BT.initAcc] using h
  · have h := (bt_fold_invariant p (sessions.take n) BT.initAcc).2
    simpa [BT.replay, BT.initAcc] using h
